import Mathlib

/-
  Shallow embedding of the WDCTCP congestion-control module
  (src/tcp_wdctcp.c, with declarations from src/wdctcp.h).

  Machine integers: every u32 field is a Nat below 2 ^ 32; every operation
  the C code performs on a u32 is followed by an explicit reduction modulo
  2 ^ 32 (u32add, u32sub, u32mul, u32).  Division and comparison on u32
  agree with the Nat operations.  Kernel collaborators that are not part of
  this repository (tcp_slow_start, tcp_is_cwnd_limited) are modelled from
  the spec and marked as such.
-/

namespace WDCTCP

/-- The u32 modulus. -/
def U32LIM : Nat := 2 ^ 32

/-- Truncate a Nat to u32. -/
def u32 (x : Nat) : Nat := x % U32LIM

/-- u32 addition with wraparound. -/
def u32add (a b : Nat) : Nat := (a + b) % U32LIM

/-- u32 subtraction with wraparound (two's complement borrow). -/
def u32sub (a b : Nat) : Nat := (a % U32LIM + (U32LIM - b % U32LIM)) % U32LIM

/-- u32 multiplication with wraparound. -/
def u32mul (a b : Nat) : Nat := (a * b) % U32LIM

/-- Linux sequence-number comparison: before(seq1, seq2) is
(s32)(seq1 - seq2) < 0, i.e. the wrapped difference has the sign bit set. -/
def seq_before (seq1 seq2 : Nat) : Bool := decide (2 ^ 31 ≤ u32sub seq1 seq2)

/-- DCTCP_MAX_ALPHA from src/tcp_wdctcp.c line 48. -/
def DCTCP_MAX_ALPHA : Nat := 1024

/-- Linux TCP_ESTABLISHED state number. -/
def TCP_ESTABLISHED : Nat := 1

/-- Linux TCP_CLOSE state number. -/
def TCP_CLOSE : Nat := 7

/-- Linux TCP_LISTEN state number. -/
def TCP_LISTEN : Nat := 10

/-- Linux TCP_CA_Loss congestion-avoidance state number. -/
def TCP_CA_Loss : Nat := 4

/-- Module parameters of src/tcp_wdctcp.c lines 66-84 (also src/wdctcp.c). -/
structure Params where
  dctcp_shift_g : Nat
  dctcp_alpha_on_init : Nat
  dctcp_clamp_alpha_on_loss : Nat
  wdctcp_precision : Nat
  wdctcp_weight_on_init : Nat
deriving DecidableEq

/-- Default values of the module parameters. -/
def defaultParams : Params :=
  { dctcp_shift_g := 4
    dctcp_alpha_on_init := DCTCP_MAX_ALPHA
    dctcp_clamp_alpha_on_loss := 0
    wdctcp_precision := 10000
    wdctcp_weight_on_init := 10000 }

/-- The fields of struct tcp_sock (and inet_connection_sock) that
src/tcp_wdctcp.c reads or writes.  ecn_demand_cwr is the
TCP_ECN_DEMAND_CWR bit of tp->ecn_flags; rcv_mss is
inet_csk(sk)->icsk_ack.rcv_mss. -/
structure TcpSock where
  snd_una : Nat
  snd_nxt : Nat
  rcv_nxt : Nat
  snd_cwnd : Nat
  snd_cwnd_cnt : Nat
  snd_ssthresh : Nat
  snd_cwnd_clamp : Nat
  ecn_demand_cwr : Bool
  rcv_mss : Nat
deriving DecidableEq

/-- struct wdctcp, src/tcp_wdctcp.c lines 50-64.  obj_weight is the u32
weight read through ca->obj (the wdctcp_obj weight handle). -/
structure Wdctcp where
  acked_bytes_ecn : Nat
  acked_bytes_total : Nat
  prior_snd_una : Nat
  prior_rcv_nxt : Nat
  dctcp_alpha : Nat
  next_seq : Nat
  ce_state : Bool
  delayed_ack_reserved : Bool
  obj_weight : Nat
  weight_acked_cnt : Nat
deriving DecidableEq

/-- Which tcp_congestion_ops table the socket points at. -/
inductive CaOps where
  | wdctcp
  | dctcp_reno
deriving DecidableEq

/-- The socket-level view wdctcp_init needs: ecn_ok is
tp->ecn_flags & TCP_ECN_OK; ect_xmit is cleared by INET_ECN_dontxmit. -/
structure Sock where
  tp : TcpSock
  ecn_ok : Bool
  sk_state : Nat
  icsk_ca_ops : CaOps
  ect_xmit : Bool
  ca : Wdctcp
deriving DecidableEq

/-- wdctcp_reset, src/tcp_wdctcp.c lines 88-94. -/
def wdctcp_reset (tp : TcpSock) (ca : Wdctcp) : Wdctcp :=
  { ca with
    next_seq := tp.snd_nxt
    acked_bytes_ecn := 0
    acked_bytes_total := 0 }

/-- wdctcp_init, src/tcp_wdctcp.c lines 96-122.  The DCTCP branch is taken
when ECN is negotiated or the socket is in LISTEN or CLOSE state;
otherwise the socket is switched to the dctcp_reno ops table and
INET_ECN_dontxmit clears outbound ECT. -/
def wdctcp_init (p : Params) (sk : Sock) : Sock :=
  if sk.ecn_ok = true ∨ sk.sk_state = TCP_LISTEN ∨ sk.sk_state = TCP_CLOSE then
    let ca := { sk.ca with
      prior_snd_una := sk.tp.snd_una
      prior_rcv_nxt := sk.tp.rcv_nxt
      dctcp_alpha := min p.dctcp_alpha_on_init DCTCP_MAX_ALPHA
      delayed_ack_reserved := false
      ce_state := false }
    { sk with ca := wdctcp_reset sk.tp ca }
  else
    { sk with icsk_ca_ops := CaOps.dctcp_reno, ect_xmit := false }

/-- dctcp_ssthresh, src/tcp_wdctcp.c lines 129-135. -/
def dctcp_ssthresh (tp : TcpSock) (ca : Wdctcp) : Nat :=
  max (u32sub tp.snd_cwnd (u32mul tp.snd_cwnd ca.dctcp_alpha / 2 ^ 11)) 2

/-- A synthetic ACK emitted by tcp_send_ack, recording the receive pointer
and the TCP_ECN_DEMAND_CWR bit in force when it was sent. -/
structure SynAck where
  rcv_nxt : Nat
  demand_cwr : Bool
deriving DecidableEq

/-- dctcp_ce_state_0_to_1, src/tcp_wdctcp.c lines 143-171. -/
def dctcp_ce_state_0_to_1 (tp : TcpSock) (ca : Wdctcp) :
    TcpSock × Wdctcp × List SynAck :=
  let r :=
    if ca.ce_state = false ∧ ca.delayed_ack_reserved = true then
      let tmp_rcv_nxt := tp.rcv_nxt
      let tp := { tp with ecn_demand_cwr := false, rcv_nxt := ca.prior_rcv_nxt }
      let acks := [SynAck.mk tp.rcv_nxt tp.ecn_demand_cwr]
      let tp := { tp with rcv_nxt := tmp_rcv_nxt }
      (tp, acks)
    else (tp, [])
  let tp := r.1
  let ca := { ca with prior_rcv_nxt := tp.rcv_nxt, ce_state := true }
  ({ tp with ecn_demand_cwr := true }, ca, r.2)

/-- dctcp_ce_state_1_to_0, src/tcp_wdctcp.c lines 173-201. -/
def dctcp_ce_state_1_to_0 (tp : TcpSock) (ca : Wdctcp) :
    TcpSock × Wdctcp × List SynAck :=
  let r :=
    if ca.ce_state = true ∧ ca.delayed_ack_reserved = true then
      let tmp_rcv_nxt := tp.rcv_nxt
      let tp := { tp with ecn_demand_cwr := true, rcv_nxt := ca.prior_rcv_nxt }
      let acks := [SynAck.mk tp.rcv_nxt tp.ecn_demand_cwr]
      let tp := { tp with rcv_nxt := tmp_rcv_nxt }
      (tp, acks)
    else (tp, [])
  let tp := r.1
  let ca := { ca with prior_rcv_nxt := tp.rcv_nxt, ce_state := false }
  ({ tp with ecn_demand_cwr := false }, ca, r.2)

/-- ACK flags delivered to in_ack_event: CA_ACK_ECE and CA_ACK_WIN_UPDATE. -/
structure AckFlags where
  ece : Bool
  win_update : Bool
deriving DecidableEq

/-- The number of newly acked bytes this ACK accounts for,
src/tcp_wdctcp.c lines 207-213: the snd_una delta, or rcv_mss for a
duplicate ACK that is not a pure window update. -/
def dctcp_acked_bytes (tp : TcpSock) (ca : Wdctcp) (flags : AckFlags) : Nat :=
  let acked_bytes := u32sub tp.snd_una ca.prior_snd_una
  if acked_bytes = 0 ∧ flags.win_update = false then tp.rcv_mss else acked_bytes

/-- The per-ACK accumulation half of dctcp_update_alpha,
src/tcp_wdctcp.c lines 207-220. -/
def dctcp_ack_accumulate (tp : TcpSock) (ca : Wdctcp) (flags : AckFlags) : Wdctcp :=
  let acked_bytes := dctcp_acked_bytes tp ca flags
  if acked_bytes ≠ 0 then
    let ca := { ca with
      acked_bytes_total := u32add ca.acked_bytes_total acked_bytes
      prior_snd_una := tp.snd_una }
    if flags.ece = true then
      { ca with acked_bytes_ecn := u32add ca.acked_bytes_ecn acked_bytes }
    else ca
  else ca

/-- The denominator of the alpha formula, src/tcp_wdctcp.c lines 225-226:
acked_bytes_total, substituted with 1 when it is zero. -/
def dctcp_epoch_denominator (ca : Wdctcp) : Nat :=
  if ca.acked_bytes_total = 0 then 1 else ca.acked_bytes_total

/-- dctcp_update_alpha, src/tcp_wdctcp.c lines 203-240 (the in_ack_event
callback): accumulate the acked bytes, then on an expired RTT recompute
alpha, clamp it to DCTCP_MAX_ALPHA and reset the epoch. -/
def dctcp_update_alpha (p : Params) (tp : TcpSock) (ca : Wdctcp)
    (flags : AckFlags) : Wdctcp :=
  let ca := dctcp_ack_accumulate tp ca flags
  if seq_before tp.snd_una ca.next_seq = false then
    let ca := { ca with acked_bytes_total := dctcp_epoch_denominator ca }
    let alpha := u32add (u32sub ca.dctcp_alpha (ca.dctcp_alpha >>> p.dctcp_shift_g))
      (u32 (ca.acked_bytes_ecn <<< (10 - p.dctcp_shift_g)) / ca.acked_bytes_total)
    let alpha := if DCTCP_MAX_ALPHA < alpha then DCTCP_MAX_ALPHA else alpha
    wdctcp_reset tp { ca with dctcp_alpha := alpha }
  else ca

/-- dctcp_state, src/tcp_wdctcp.c lines 242-257 (the set_state callback). -/
def dctcp_state (p : Params) (ca : Wdctcp) (new_state : Nat) : Wdctcp :=
  if p.dctcp_clamp_alpha_on_loss ≠ 0 ∧ new_state = TCP_CA_Loss then
    { ca with dctcp_alpha := DCTCP_MAX_ALPHA }
  else ca

/-- Congestion events delivered to the cwnd_event callback. -/
inductive CaEvent where
  | ecn_is_ce
  | ecn_no_ce
  | delayed_ack
  | non_delayed_ack
  | other
deriving DecidableEq

/-- dctcp_update_ack_reserved, src/tcp_wdctcp.c lines 259-276. -/
def dctcp_update_ack_reserved (ca : Wdctcp) (ev : CaEvent) : Wdctcp :=
  match ev with
  | CaEvent.delayed_ack =>
      if ca.delayed_ack_reserved = false then
        { ca with delayed_ack_reserved := true }
      else ca
  | CaEvent.non_delayed_ack =>
      if ca.delayed_ack_reserved = true then
        { ca with delayed_ack_reserved := false }
      else ca
  | _ => ca

/-- dctcp_cwnd_event, src/tcp_wdctcp.c lines 278-295. -/
def dctcp_cwnd_event (tp : TcpSock) (ca : Wdctcp) (ev : CaEvent) :
    TcpSock × Wdctcp × List SynAck :=
  match ev with
  | CaEvent.ecn_is_ce => dctcp_ce_state_0_to_1 tp ca
  | CaEvent.ecn_no_ce => dctcp_ce_state_1_to_0 tp ca
  | CaEvent.delayed_ack => (tp, dctcp_update_ack_reserved ca ev, [])
  | CaEvent.non_delayed_ack => (tp, dctcp_update_ack_reserved ca ev, [])
  | CaEvent.other => (tp, ca, [])

/-- The weighted-credit stage of wdctcp_cong_avoid_ai,
src/tcp_wdctcp.c lines 335-342, on the pair
(weight_acked_cnt, snd_cwnd_cnt): fold weight * acked into the
accumulator and move whole units of wdctcp_precision into snd_cwnd_cnt,
keeping the remainder. -/
def wdctcp_weight_stage (p : Params) (weight acked : Nat) (s : Nat × Nat) :
    Nat × Nat :=
  let acc := u32add s.1 (u32mul weight acked)
  if p.wdctcp_precision ≤ acc then
    let delta := acc / p.wdctcp_precision
    (u32sub acc (delta * p.wdctcp_precision), u32add s.2 delta)
  else (acc, s.2)

/-- wdctcp_cong_avoid_ai, src/tcp_wdctcp.c lines 324-351. -/
def wdctcp_cong_avoid_ai (p : Params) (tp : TcpSock) (ca : Wdctcp)
    (w acked : Nat) : TcpSock × Wdctcp :=
  let tp :=
    if w ≤ tp.snd_cwnd_cnt then
      { tp with snd_cwnd_cnt := 0, snd_cwnd := u32add tp.snd_cwnd 1 }
    else tp
  let s := wdctcp_weight_stage p ca.obj_weight acked
    (ca.weight_acked_cnt, tp.snd_cwnd_cnt)
  let ca := { ca with weight_acked_cnt := s.1 }
  let tp := { tp with snd_cwnd_cnt := s.2 }
  let tp :=
    if w ≤ tp.snd_cwnd_cnt then
      let delta := tp.snd_cwnd_cnt / w
      { tp with
        snd_cwnd_cnt := u32sub tp.snd_cwnd_cnt (delta * w)
        snd_cwnd := u32add tp.snd_cwnd delta }
    else tp
  ({ tp with snd_cwnd := min tp.snd_cwnd tp.snd_cwnd_clamp }, ca)

/-- Modelled from the spec: tcp_slow_start is a kernel helper, an external
collaborator not present in this repository.  The spec says that in slow
start the window grows by one segment per ACK, capped so it never
overshoots snd_ssthresh (and bounded by snd_cwnd_clamp); the call
consumes the acked segments used for that growth and returns the rest. -/
def tcp_slow_start (tp : TcpSock) (acked : Nat) : TcpSock × Nat :=
  let cwnd := min (tp.snd_cwnd + acked) tp.snd_ssthresh
  let consumed := cwnd - tp.snd_cwnd
  ({ tp with snd_cwnd := min cwnd tp.snd_cwnd_clamp }, acked - consumed)

/-- wdctcp_cong_avoid, src/tcp_wdctcp.c lines 356-371.  cwnd_limited is
the value of tcp_is_cwnd_limited(sk), a kernel predicate on stack state
outside this model. -/
def wdctcp_cong_avoid (p : Params) (cwnd_limited : Bool) (tp : TcpSock)
    (ca : Wdctcp) (acked : Nat) : TcpSock × Wdctcp :=
  if cwnd_limited = false then (tp, ca)
  else if tp.snd_cwnd ≤ tp.snd_ssthresh then
    let r := tcp_slow_start tp acked
    if r.2 = 0 then (r.1, ca)
    else wdctcp_cong_avoid_ai p r.1 ca r.1.snd_cwnd r.2
  else wdctcp_cong_avoid_ai p tp ca tp.snd_cwnd acked

/-- The field names of struct wdctcp, src/tcp_wdctcp.c lines 50-64. -/
def wdctcp_struct_fields : List String :=
  ["acked_bytes_ecn", "acked_bytes_total", "prior_snd_una", "prior_rcv_nxt",
   "dctcp_alpha", "next_seq", "ce_state", "delayed_ack_reserved", "obj",
   "weight_acked_cnt"]

/-- The callback slots filled in the wdctcp tcp_congestion_ops table,
src/tcp_wdctcp.c lines 373-385. -/
def wdctcp_ops_fields : List String :=
  ["init", "release", "in_ack_event", "cwnd_event", "ssthresh",
   "cong_avoid", "set_state", "get_info", "flags", "owner", "name"]

/-- One stack-driven event on a live connection, carrying the stack state
the callback observes. -/
inductive StackEvent where
  | ack (tp : TcpSock) (flags : AckFlags)
  | cwnd (tp : TcpSock) (ev : CaEvent)
  | setState (new_state : Nat)

/-- The per-connection congestion state after one stack event. -/
def wdctcp_step (p : Params) (ca : Wdctcp) : StackEvent → Wdctcp
  | StackEvent.ack tp flags => dctcp_update_alpha p tp ca flags
  | StackEvent.cwnd tp ev => (dctcp_cwnd_event tp ca ev).2.1
  | StackEvent.setState s => dctcp_state p ca s

/-! Arithmetic facts about the u32 embedding. -/

theorem U32LIM_eq : U32LIM = 4294967296 := rfl

theorem U32LIM_pos : 0 < U32LIM := by rw [U32LIM_eq]; omega

theorem u32add_eq {a b : Nat} (h : a + b < U32LIM) : u32add a b = a + b :=
  Nat.mod_eq_of_lt h

theorem u32mul_eq {a b : Nat} (h : a * b < U32LIM) : u32mul a b = a * b :=
  Nat.mod_eq_of_lt h

theorem u32add_lt (a b : Nat) : u32add a b < U32LIM :=
  Nat.mod_lt _ U32LIM_pos

theorem u32mul_lt (a b : Nat) : u32mul a b < U32LIM :=
  Nat.mod_lt _ U32LIM_pos

theorem u32sub_eq {a b : Nat} (hb : b ≤ a) (ha : a < U32LIM) :
    u32sub a b = a - b := by
  unfold u32sub
  rw [Nat.mod_eq_of_lt (lt_of_le_of_lt hb ha), Nat.mod_eq_of_lt ha]
  have h1 : a + (U32LIM - b) = (a - b) + U32LIM := by omega
  rw [h1, Nat.add_mod_right, Nat.mod_eq_of_lt (by omega)]

theorem div_chain {n : Nat} (hn : 0 < n) (x y : Nat) :
    x / n + (x % n + y) / n = (x + y) / n := by
  conv_rhs => rw [← Nat.div_add_mod x n]
  rw [Nat.add_assoc, Nat.mul_add_div hn]

theorem mod_chain (n x y : Nat) : (x % n + y) % n = (x + y) % n :=
  Nat.mod_add_mod x n y

/-! Facts about the embedded operations. -/

theorem dctcp_ack_accumulate_next_seq (tp : TcpSock) (ca : Wdctcp)
    (flags : AckFlags) :
    (dctcp_ack_accumulate tp ca flags).next_seq = ca.next_seq := by
  simp only [dctcp_ack_accumulate]
  split_ifs <;> rfl

theorem ssthresh_shift_le {cwnd alpha : Nat} (ha : alpha ≤ 1024) :
    u32mul cwnd alpha / 2 ^ 11 ≤ cwnd := by
  by_cases h : cwnd * alpha < U32LIM
  · rw [u32mul_eq h]
    have h1 : cwnd * alpha ≤ cwnd * 2 ^ 11 :=
      Nat.mul_le_mul_left cwnd (le_trans ha (by norm_num))
    calc cwnd * alpha / 2 ^ 11 ≤ cwnd * 2 ^ 11 / 2 ^ 11 :=
          Nat.div_le_div_right h1
      _ = cwnd := Nat.mul_div_cancel cwnd (by norm_num)
  · have h2 : U32LIM ≤ cwnd * 1024 :=
      le_trans (Nat.le_of_not_lt h) (Nat.mul_le_mul_left cwnd ha)
    have h3 : 4194304 ≤ cwnd := by
      rw [U32LIM_eq] at h2; omega
    have h4 : u32mul cwnd alpha < U32LIM := u32mul_lt cwnd alpha
    have h5 : u32mul cwnd alpha / 2 ^ 11 < 2097152 := by
      apply Nat.div_lt_of_lt_mul
      calc u32mul cwnd alpha < U32LIM := h4
        _ = 2 ^ 11 * 2097152 := by rw [U32LIM_eq]; norm_num
    omega

/-- Claim C5: for every snd_cwnd (a u32 value) and every alpha in [0, 1024],
dctcp_ssthresh returns max(snd_cwnd - ((snd_cwnd * alpha) >> 11), 2), the
shift-product taken in u32 arithmetic and the subtraction never borrowing;
in particular the result is never less than 2. -/
theorem dctcp_ssthresh_floor (tp : TcpSock) (ca : Wdctcp)
    (hc : tp.snd_cwnd < U32LIM) (ha : ca.dctcp_alpha ≤ 1024) :
    dctcp_ssthresh tp ca
      = max (tp.snd_cwnd - u32mul tp.snd_cwnd ca.dctcp_alpha / 2 ^ 11) 2 ∧
    2 ≤ dctcp_ssthresh tp ca := by
  constructor
  · unfold dctcp_ssthresh
    rw [u32sub_eq (ssthresh_shift_le ha) hc]
  · unfold dctcp_ssthresh
    exact le_max_right _ 2

/-- Witness for C5 at snd_cwnd = 10, alpha = 1024: the window floor holds
and the formula value is 5. -/
theorem dctcp_ssthresh_floor_witness :
    2 ≤ dctcp_ssthresh ⟨0, 0, 0, 10, 0, 0, 0, false, 0⟩
        ⟨0, 0, 0, 0, 1024, 0, false, false, 0, 0⟩ ∧
    dctcp_ssthresh ⟨0, 0, 0, 10, 0, 0, 0, false, 0⟩
        ⟨0, 0, 0, 0, 1024, 0, false, false, 0, 0⟩ = 5 := by
  refine ⟨(dctcp_ssthresh_floor _ _ (by decide) (by decide)).2, ?_⟩
  have h := (dctcp_ssthresh_floor ⟨0, 0, 0, 10, 0, 0, 0, false, 0⟩
    ⟨0, 0, 0, 0, 1024, 0, false, false, 0, 0⟩ (by decide) (by decide)).1
  rw [h]; decide

/-- Claim C8: the denominator of the alpha update is always positive, and a
zero-bytes-acked epoch has the denominator silently substituted with 1; at a
concrete zero-total epoch boundary the update is well defined and yields
alpha = 1024 - 64 + 0 = 960. -/
theorem dctcp_division_guard (ca : Wdctcp) :
    0 < dctcp_epoch_denominator ca ∧
    dctcp_epoch_denominator { ca with acked_bytes_total := 0 } = 1 ∧
    (dctcp_update_alpha defaultParams ⟨0, 0, 0, 0, 0, 0, 0, false, 0⟩
      ⟨0, 0, 0, 0, 1024, 0, false, false, 0, 0⟩ ⟨false, true⟩).dctcp_alpha
        = 960 := by
  refine ⟨?_, ?_, ?_⟩
  · unfold dctcp_epoch_denominator; split <;> omega
  · simp [dctcp_epoch_denominator]
  · decide

/-- Claim C6 counterexample: the per-connection struct wdctcp has no
loss-window snapshot field, and the wdctcp tcp_congestion_ops table
registers no undo_cwnd callback, so ssthresh cannot store a snapshot and no
undo operation exists in this module. -/
theorem wdctcp_no_undo_support :
    ("loss_cwnd_snapshot" ∉ wdctcp_struct_fields) ∧
    ("loss_cwnd" ∉ wdctcp_struct_fields) ∧
    ("undo_cwnd" ∉ wdctcp_ops_fields) := by
  decide

/-- Claim C6 (amended): dctcp_ssthresh stores nothing and reads no
snapshot: its value depends only on the window and alpha, so any two
per-connection states with the same alpha give the same ssthresh. -/
theorem dctcp_ssthresh_stateless (tp : TcpSock) (ca ca2 : Wdctcp)
    (h : ca.dctcp_alpha = ca2.dctcp_alpha) :
    dctcp_ssthresh tp ca = dctcp_ssthresh tp ca2 := by
  simp [dctcp_ssthresh, h]

/-- Witness for the amended C6: two states differing in every field except
alpha give the same ssthresh. -/
theorem dctcp_ssthresh_stateless_witness :
    dctcp_ssthresh ⟨0, 0, 0, 20, 0, 0, 0, false, 0⟩
        ⟨1, 2, 3, 4, 512, 5, true, true, 6, 7⟩
      = dctcp_ssthresh ⟨0, 0, 0, 20, 0, 0, 0, false, 0⟩
        ⟨8, 9, 10, 11, 512, 12, false, false, 13, 14⟩ :=
  dctcp_ssthresh_stateless _ _ _ rfl

/-- Claim C4 counterexample: a socket without negotiated ECN in the LISTEN
state is NOT switched to the Reno fallback by wdctcp_init; it keeps the
wdctcp ops and its outbound ECT marking. -/
theorem wdctcp_init_listen_no_fallback :
    (wdctcp_init defaultParams ⟨⟨0, 0, 0, 0, 0, 0, 0, false, 0⟩, false,
        TCP_LISTEN, CaOps.wdctcp, true,
        ⟨0, 0, 0, 0, 0, 0, false, false, 0, 0⟩⟩).icsk_ca_ops
      = CaOps.wdctcp ∧
    (wdctcp_init defaultParams ⟨⟨0, 0, 0, 0, 0, 0, 0, false, 0⟩, false,
        TCP_LISTEN, CaOps.wdctcp, true,
        ⟨0, 0, 0, 0, 0, 0, false, false, 0, 0⟩⟩).ect_xmit = true := by
  decide

/-- Claim C4 (amended): for every connection on which ECN is not negotiated
AND which is in neither the LISTEN nor the CLOSE state, wdctcp_init
deterministically switches the socket to the Reno fallback ops, disables
outbound ECT marking, and leaves the congestion-control private area
untouched (in particular it acquires no weight handle). -/
theorem wdctcp_init_fallback (p : Params) (sk : Sock)
    (h1 : sk.ecn_ok = false) (h2 : sk.sk_state ≠ TCP_LISTEN)
    (h3 : sk.sk_state ≠ TCP_CLOSE) :
    wdctcp_init p sk
      = { sk with icsk_ca_ops := CaOps.dctcp_reno, ect_xmit := false } := by
  simp [wdctcp_init, h1, h2, h3]

/-- Witness for the amended C4 on an ESTABLISHED socket without ECN. -/
theorem wdctcp_init_fallback_witness :
    wdctcp_init defaultParams ⟨⟨0, 0, 0, 0, 0, 0, 0, false, 0⟩, false,
        TCP_ESTABLISHED, CaOps.wdctcp, true,
        ⟨0, 0, 0, 0, 0, 0, false, false, 0, 0⟩⟩
      = ⟨⟨0, 0, 0, 0, 0, 0, 0, false, 0⟩, false, TCP_ESTABLISHED,
        CaOps.dctcp_reno, false, ⟨0, 0, 0, 0, 0, 0, false, false, 0, 0⟩⟩ :=
  wdctcp_init_fallback defaultParams _ rfl (by decide) (by decide)

/-- Claim C2: when in_ack_event observes that snd_una has reached or passed
next_seq, alpha is recomputed (on the counters accumulated through this
call) as alpha - (alpha >> g) + (acked_bytes_ecn << (10 - g)) / denominator
and clamped to at most 1024, both epoch byte counters are reset to 0, and
next_seq is set to the current snd_nxt. -/
theorem dctcp_epoch_alpha_update (p : Params) (tp : TcpSock) (ca : Wdctcp)
    (flags : AckFlags)
    (hep : seq_before tp.snd_una ca.next_seq = false) :
    (dctcp_update_alpha p tp ca flags).dctcp_alpha
      = min (u32add
          (u32sub (dctcp_ack_accumulate tp ca flags).dctcp_alpha
            ((dctcp_ack_accumulate tp ca flags).dctcp_alpha
              >>> p.dctcp_shift_g))
          (u32 ((dctcp_ack_accumulate tp ca flags).acked_bytes_ecn
              <<< (10 - p.dctcp_shift_g))
            / dctcp_epoch_denominator (dctcp_ack_accumulate tp ca flags)))
        DCTCP_MAX_ALPHA
    ∧ (dctcp_update_alpha p tp ca flags).acked_bytes_ecn = 0
    ∧ (dctcp_update_alpha p tp ca flags).acked_bytes_total = 0
    ∧ (dctcp_update_alpha p tp ca flags).next_seq = tp.snd_nxt
    ∧ (dctcp_update_alpha p tp ca flags).dctcp_alpha ≤ DCTCP_MAX_ALPHA := by
  have hseq : seq_before tp.snd_una
      (dctcp_ack_accumulate tp ca flags).next_seq = false := by
    rw [dctcp_ack_accumulate_next_seq]; exact hep
  unfold dctcp_update_alpha
  rw [if_pos hseq]
  refine ⟨?_, rfl, rfl, rfl, ?_⟩
  · dsimp only [wdctcp_reset]
    rw [Nat.min_def]
    split_ifs <;> omega
  · dsimp only [wdctcp_reset]
    split_ifs <;> omega

/-- Witness for C2: the spec scenario g = 4, alpha = 1024,
acked_bytes_total = 10000, acked_bytes_ecn = 5000 gives new alpha 992. -/
theorem dctcp_epoch_alpha_update_witness :
    (dctcp_update_alpha defaultParams ⟨0, 7777, 0, 0, 0, 0, 0, false, 0⟩
      ⟨5000, 10000, 0, 0, 1024, 0, false, false, 0, 0⟩
      ⟨false, true⟩).dctcp_alpha = 992 := by
  have h := (dctcp_epoch_alpha_update defaultParams
    ⟨0, 7777, 0, 0, 0, 0, 0, false, 0⟩
    ⟨5000, 10000, 0, 0, 1024, 0, false, false, 0, 0⟩
    ⟨false, true⟩ (by decide)).1
  rw [h]; decide

/-- Claim C3: a NotCE-to-CE or CE-to-NotCE transition delivered through
cwnd_event while a delayed ACK is pending emits exactly one synthetic ACK
carrying the pre-transition CE flag (the demand-CWR bit) for the sequence
range up to prior_rcv_nxt, and the true rcv_nxt is restored afterwards;
after every transition prior_rcv_nxt equals the rcv_nxt at transition time
and ce_state reflects the new signal; no event while no delayed ACK is
pending emits any synthetic ACK. -/
theorem dctcp_ce_synack_correct (tp : TcpSock) (ca : Wdctcp) :
    (ca.ce_state = false → ca.delayed_ack_reserved = true →
      (dctcp_cwnd_event tp ca CaEvent.ecn_is_ce).2.2
          = [SynAck.mk ca.prior_rcv_nxt false] ∧
      (dctcp_cwnd_event tp ca CaEvent.ecn_is_ce).1.rcv_nxt = tp.rcv_nxt) ∧
    (ca.ce_state = true → ca.delayed_ack_reserved = true →
      (dctcp_cwnd_event tp ca CaEvent.ecn_no_ce).2.2
          = [SynAck.mk ca.prior_rcv_nxt true] ∧
      (dctcp_cwnd_event tp ca CaEvent.ecn_no_ce).1.rcv_nxt = tp.rcv_nxt) ∧
    (ca.delayed_ack_reserved = false →
      (dctcp_cwnd_event tp ca CaEvent.ecn_is_ce).2.2 = [] ∧
      (dctcp_cwnd_event tp ca CaEvent.ecn_no_ce).2.2 = []) ∧
    (dctcp_cwnd_event tp ca CaEvent.ecn_is_ce).2.1.prior_rcv_nxt
        = tp.rcv_nxt ∧
    (dctcp_cwnd_event tp ca CaEvent.ecn_no_ce).2.1.prior_rcv_nxt
        = tp.rcv_nxt ∧
    (dctcp_cwnd_event tp ca CaEvent.ecn_is_ce).2.1.ce_state = true ∧
    (dctcp_cwnd_event tp ca CaEvent.ecn_no_ce).2.1.ce_state = false := by
  refine ⟨?_, ?_, ?_, ?_, ?_, ?_, ?_⟩
  · intro h1 h2
    simp [dctcp_cwnd_event, dctcp_ce_state_0_to_1, h1, h2]
  · intro h1 h2
    simp [dctcp_cwnd_event, dctcp_ce_state_1_to_0, h1, h2]
  · intro h
    simp [dctcp_cwnd_event, dctcp_ce_state_0_to_1, dctcp_ce_state_1_to_0, h]
  · simp only [dctcp_cwnd_event, dctcp_ce_state_0_to_1]
    split_ifs <;> rfl
  · simp only [dctcp_cwnd_event, dctcp_ce_state_1_to_0]
    split_ifs <;> rfl
  · rfl
  · rfl

/-- Witness for C3: a NotCE-to-CE transition with a pending delayed ACK
emits one synthetic ACK with CE flag 0 at the old prior_rcv_nxt and
restores rcv_nxt = 9. -/
theorem dctcp_ce_synack_correct_witness :
    (dctcp_cwnd_event ⟨0, 0, 9, 0, 0, 0, 0, false, 0⟩
        ⟨0, 0, 0, 5, 0, 0, false, true, 0, 0⟩ CaEvent.ecn_is_ce).2.2
      = [SynAck.mk 5 false] ∧
    (dctcp_cwnd_event ⟨0, 0, 9, 0, 0, 0, 0, false, 0⟩
        ⟨0, 0, 0, 5, 0, 0, false, true, 0, 0⟩ CaEvent.ecn_is_ce).1.rcv_nxt
      = 9 :=
  (dctcp_ce_synack_correct ⟨0, 0, 9, 0, 0, 0, 0, false, 0⟩
    ⟨0, 0, 0, 5, 0, 0, false, true, 0, 0⟩).1 rfl rfl

/-! Alpha never leaves [0, 1024]: per-callback lemmas, then the event
sequence invariant. -/

theorem dctcp_ack_accumulate_alpha (tp : TcpSock) (ca : Wdctcp)
    (flags : AckFlags) :
    (dctcp_ack_accumulate tp ca flags).dctcp_alpha = ca.dctcp_alpha := by
  simp only [dctcp_ack_accumulate]
  split_ifs <;> rfl

theorem dctcp_update_alpha_le (p : Params) (tp : TcpSock) (ca : Wdctcp)
    (flags : AckFlags) (h : ca.dctcp_alpha ≤ DCTCP_MAX_ALPHA) :
    (dctcp_update_alpha p tp ca flags).dctcp_alpha ≤ DCTCP_MAX_ALPHA := by
  simp only [dctcp_update_alpha, wdctcp_reset]
  split_ifs with hif hclamp
  · dsimp only
    exact le_refl _
  · dsimp only
    omega
  · rw [dctcp_ack_accumulate_alpha]
    exact h

theorem dctcp_cwnd_event_alpha (tp : TcpSock) (ca : Wdctcp) (ev : CaEvent) :
    (dctcp_cwnd_event tp ca ev).2.1.dctcp_alpha = ca.dctcp_alpha := by
  cases ev <;>
    simp only [dctcp_cwnd_event, dctcp_ce_state_0_to_1, dctcp_ce_state_1_to_0,
      dctcp_update_ack_reserved] <;>
    split_ifs <;> rfl

theorem dctcp_state_alpha_le (p : Params) (ca : Wdctcp) (s : Nat)
    (h : ca.dctcp_alpha ≤ DCTCP_MAX_ALPHA) :
    (dctcp_state p ca s).dctcp_alpha ≤ DCTCP_MAX_ALPHA := by
  unfold dctcp_state
  split_ifs <;> simp [h]

theorem wdctcp_step_alpha_le (p : Params) (ca : Wdctcp) (e : StackEvent)
    (h : ca.dctcp_alpha ≤ DCTCP_MAX_ALPHA) :
    (wdctcp_step p ca e).dctcp_alpha ≤ DCTCP_MAX_ALPHA := by
  cases e with
  | ack tp flags => exact dctcp_update_alpha_le p tp ca flags h
  | cwnd tp ev => rw [wdctcp_step, dctcp_cwnd_event_alpha]; exact h
  | setState s => exact dctcp_state_alpha_le p ca s h

theorem wdctcp_fold_alpha_le (p : Params) (evs : List StackEvent) :
    ∀ ca : Wdctcp, ca.dctcp_alpha ≤ DCTCP_MAX_ALPHA →
      (evs.foldl (wdctcp_step p) ca).dctcp_alpha ≤ DCTCP_MAX_ALPHA := by
  induction evs with
  | nil => intro ca h; exact h
  | cons e evs ih =>
      intro ca h
      exact ih (wdctcp_step p ca e) (wdctcp_step_alpha_le p ca e h)

/-- Claim C7: starting from wdctcp_init on an algorithm-eligible socket
(with an arbitrary configured dctcp_alpha_on_init), after any sequence of
ACK, CE/cwnd and set_state events — hence after every in_ack_event call,
and including a clamp-on-loss set_state — alpha stays within [0, 1024]. -/
theorem dctcp_alpha_bounded (p : Params) (sk : Sock) (evs : List StackEvent)
    (h : sk.ecn_ok = true ∨ sk.sk_state = TCP_LISTEN
      ∨ sk.sk_state = TCP_CLOSE) :
    0 ≤ (evs.foldl (wdctcp_step p) (wdctcp_init p sk).ca).dctcp_alpha ∧
    (evs.foldl (wdctcp_step p) (wdctcp_init p sk).ca).dctcp_alpha ≤ 1024 := by
  refine ⟨Nat.zero_le _, ?_⟩
  apply wdctcp_fold_alpha_le
  unfold wdctcp_init
  rw [if_pos h]
  dsimp only [wdctcp_reset]
  exact min_le_right _ _

/-- Witness for C7: an over-range configured initial alpha, one ACK at an
epoch boundary, a loss set_state with clamping enabled and a CE event
leave alpha within [0, 1024]. -/
theorem dctcp_alpha_bounded_witness :
    0 ≤ (([StackEvent.ack ⟨0, 0, 0, 0, 0, 0, 0, false, 0⟩ ⟨true, false⟩,
          StackEvent.setState TCP_CA_Loss,
          StackEvent.cwnd ⟨0, 0, 0, 0, 0, 0, 0, false, 0⟩ CaEvent.ecn_is_ce
         ]).foldl (wdctcp_step ⟨4, 99999, 1, 10000, 10000⟩)
          (wdctcp_init ⟨4, 99999, 1, 10000, 10000⟩
            ⟨⟨0, 0, 0, 0, 0, 0, 0, false, 0⟩, true, 1, CaOps.wdctcp, true,
             ⟨0, 0, 0, 0, 0, 0, false, false, 0, 0⟩⟩).ca).dctcp_alpha ∧
    (([StackEvent.ack ⟨0, 0, 0, 0, 0, 0, 0, false, 0⟩ ⟨true, false⟩,
          StackEvent.setState TCP_CA_Loss,
          StackEvent.cwnd ⟨0, 0, 0, 0, 0, 0, 0, false, 0⟩ CaEvent.ecn_is_ce
         ]).foldl (wdctcp_step ⟨4, 99999, 1, 10000, 10000⟩)
          (wdctcp_init ⟨4, 99999, 1, 10000, 10000⟩
            ⟨⟨0, 0, 0, 0, 0, 0, 0, false, 0⟩, true, 1, CaOps.wdctcp, true,
             ⟨0, 0, 0, 0, 0, 0, false, false, 0, 0⟩⟩).ca).dctcp_alpha
      ≤ 1024 :=
  dctcp_alpha_bounded ⟨4, 99999, 1, 10000, 10000⟩
    ⟨⟨0, 0, 0, 0, 0, 0, 0, false, 0⟩, true, 1, CaOps.wdctcp, true,
     ⟨0, 0, 0, 0, 0, 0, false, false, 0, 0⟩⟩ _ (Or.inl rfl)

/-- Claim C10 counterexample: with u32 wraparound of the epoch byte
counters, a state with acked_bytes_ecn greater than acked_bytes_total is
reachable from wdctcp_init by two in_ack_event calls inside one epoch: an
ECN-echo ACK for 2^31 bytes, then a non-ECN ACK whose snd_una delta wraps
acked_bytes_total past 2^32 while acked_bytes_ecn stays at 2^31. -/
theorem acked_bytes_wrap_violation :
    ¬((dctcp_update_alpha defaultParams ⟨2, 0, 0, 0, 0, 0, 0, false, 0⟩
        (dctcp_update_alpha defaultParams
          ⟨2147483648, 0, 0, 0, 0, 0, 0, false, 0⟩
          (wdctcp_init defaultParams
            ⟨⟨0, 2147483650, 0, 0, 0, 0, 0, false, 0⟩, true, 1,
             CaOps.wdctcp, true,
             ⟨0, 0, 0, 0, 0, 0, false, false, 10000, 0⟩⟩).ca
          ⟨true, false⟩)
        ⟨false, false⟩).acked_bytes_ecn
      ≤ (dctcp_update_alpha defaultParams ⟨2, 0, 0, 0, 0, 0, 0, false, 0⟩
        (dctcp_update_alpha defaultParams
          ⟨2147483648, 0, 0, 0, 0, 0, 0, false, 0⟩
          (wdctcp_init defaultParams
            ⟨⟨0, 2147483650, 0, 0, 0, 0, 0, false, 0⟩, true, 1,
             CaOps.wdctcp, true,
             ⟨0, 0, 0, 0, 0, 0, false, false, 10000, 0⟩⟩).ca
          ⟨true, false⟩)
        ⟨false, false⟩).acked_bytes_total) := by
  decide

/-- Claim C10 (amended): acked_bytes_ecn ≤ acked_bytes_total is preserved
by every in_ack_event call whose addition to acked_bytes_total does not
wrap past 2^32 (both counters are reset to 0 together at an epoch boundary,
and the ECN-Echo branch adds the same acked-bytes delta to both); under u32
wraparound of the epoch counters the invariant can fail. -/
theorem acked_bytes_ecn_le_total (p : Params) (tp : TcpSock) (ca : Wdctcp)
    (flags : AckFlags)
    (h1 : ca.acked_bytes_ecn ≤ ca.acked_bytes_total)
    (h2 : ca.acked_bytes_total + dctcp_acked_bytes tp ca flags < U32LIM) :
    (dctcp_update_alpha p tp ca flags).acked_bytes_ecn
      ≤ (dctcp_update_alpha p tp ca flags).acked_bytes_total := by
  have hacc : (dctcp_ack_accumulate tp ca flags).acked_bytes_ecn
      ≤ (dctcp_ack_accumulate tp ca flags).acked_bytes_total := by
    simp only [dctcp_ack_accumulate]
    split_ifs with ha he
    · dsimp only
      rw [u32add_eq h2, u32add_eq (by omega)]
      omega
    · dsimp only
      rw [u32add_eq h2]
      omega
    · exact h1
  simp only [dctcp_update_alpha, wdctcp_reset]
  split_ifs with hif hclamp
  · dsimp only
    omega
  · dsimp only
    omega
  · exact hacc

/-- Witness for the amended C10: a non-wrapping ECN-echo ACK preserves the
counter inequality. -/
theorem acked_bytes_ecn_le_total_witness :
    (dctcp_update_alpha defaultParams ⟨600, 0, 0, 0, 0, 0, 0, false, 0⟩
        ⟨50, 100, 500, 0, 1024, 90000, false, false, 10000, 0⟩
        ⟨true, false⟩).acked_bytes_ecn
      ≤ (dctcp_update_alpha defaultParams ⟨600, 0, 0, 0, 0, 0, 0, false, 0⟩
        ⟨50, 100, 500, 0, 1024, 90000, false, false, 10000, 0⟩
        ⟨true, false⟩).acked_bytes_total :=
  acked_bytes_ecn_le_total defaultParams _ _ _ (by decide) (by decide)

/-! The weighted-credit stage: normal form, accumulator bound, fold. -/

theorem weight_stage_acc_lt (p : Params) (hP : 0 < p.wdctcp_precision)
    (W a : Nat) (s : Nat × Nat) :
    (wdctcp_weight_stage p W a s).1 < p.wdctcp_precision := by
  simp only [wdctcp_weight_stage]
  split_ifs with h
  · dsimp only
    have h1 : u32add s.1 (u32mul W a) < U32LIM := u32add_lt _ _
    have h2 : u32add s.1 (u32mul W a) / p.wdctcp_precision * p.wdctcp_precision
        ≤ u32add s.1 (u32mul W a) := Nat.div_mul_le_self _ _
    rw [u32sub_eq h2 h1]
    have h3 := Nat.div_add_mod (u32add s.1 (u32mul W a)) p.wdctcp_precision
    have h4 : u32add s.1 (u32mul W a) % p.wdctcp_precision
        < p.wdctcp_precision := Nat.mod_lt _ hP
    have h5 : u32add s.1 (u32mul W a) / p.wdctcp_precision * p.wdctcp_precision
        = p.wdctcp_precision * (u32add s.1 (u32mul W a) / p.wdctcp_precision) :=
      Nat.mul_comm _ _
    omega
  · dsimp only
    omega

theorem weight_stage_eq (p : Params) (_hP : 0 < p.wdctcp_precision)
    (W a : Nat) (s : Nat × Nat)
    (h1 : s.1 + W * a < U32LIM)
    (h2 : s.2 + (s.1 + W * a) / p.wdctcp_precision < U32LIM) :
    wdctcp_weight_stage p W a s
      = ((s.1 + W * a) % p.wdctcp_precision,
         s.2 + (s.1 + W * a) / p.wdctcp_precision) := by
  have hWa : W * a < U32LIM := by omega
  simp only [wdctcp_weight_stage, u32mul_eq hWa, u32add_eq h1]
  split_ifs with h
  · have ha : (s.1 + W * a) / p.wdctcp_precision * p.wdctcp_precision
        ≤ s.1 + W * a := Nat.div_mul_le_self _ _
    rw [u32sub_eq ha h1, u32add_eq h2]
    have h3 := Nat.div_add_mod (s.1 + W * a) p.wdctcp_precision
    have h5 : (s.1 + W * a) / p.wdctcp_precision * p.wdctcp_precision
        = p.wdctcp_precision * ((s.1 + W * a) / p.wdctcp_precision) :=
      Nat.mul_comm _ _
    refine Prod.ext ?_ rfl
    omega
  · refine Prod.ext ?_ ?_
    · dsimp only
      rw [Nat.mod_eq_of_lt (by omega)]
    · dsimp only
      rw [Nat.div_eq_of_lt (by omega)]
      omega

theorem weight_stage_foldl (p : Params) (hP : 0 < p.wdctcp_precision)
    (W : Nat) (as : List Nat) :
    ∀ acc0 cnt0 : Nat, acc0 < p.wdctcp_precision →
      p.wdctcp_precision + W * as.sum ≤ U32LIM →
      cnt0 + (acc0 + W * as.sum) / p.wdctcp_precision < U32LIM →
      as.foldl (fun s a => wdctcp_weight_stage p W a s) (acc0, cnt0)
        = ((acc0 + W * as.sum) % p.wdctcp_precision,
           cnt0 + (acc0 + W * as.sum) / p.wdctcp_precision) := by
  induction as with
  | nil =>
      intro acc0 cnt0 h0 hsum hcnt
      simp [Nat.mod_eq_of_lt h0, Nat.div_eq_of_lt h0]
  | cons a as ih =>
      intro acc0 cnt0 h0 hsum hcnt
      rw [List.sum_cons, Nat.mul_add] at hsum hcnt
      rw [← Nat.add_assoc] at hcnt
      have hle : W * a ≤ W * a + W * as.sum := Nat.le_add_right _ _
      have hstep1 : acc0 + W * a < U32LIM := by omega
      have hdivle : (acc0 + W * a) / p.wdctcp_precision
          ≤ (acc0 + W * a + W * as.sum) / p.wdctcp_precision :=
        Nat.div_le_div_right (by omega)
      have hchain := div_chain hP (acc0 + W * a) (W * as.sum)
      have hstep2 : cnt0 + (acc0 + W * a) / p.wdctcp_precision < U32LIM := by
        omega
      rw [List.foldl_cons, weight_stage_eq p hP W a (acc0, cnt0) hstep1 hstep2]
      rw [ih ((acc0 + W * a) % p.wdctcp_precision)
          (cnt0 + (acc0 + W * a) / p.wdctcp_precision)
          (Nat.mod_lt _ hP) (by omega) (by omega)]
      have hmod := mod_chain p.wdctcp_precision (acc0 + W * a) (W * as.sum)
      rw [List.sum_cons, Nat.mul_add, ← Nat.add_assoc]
      refine Prod.ext ?_ ?_ <;> dsimp only <;> omega

/-- Normal form of wdctcp_cong_avoid_ai in the congestion-avoidance
steady state: entry snd_cwnd_cnt below the divisor w and no u32 wrap. -/
theorem ai_eq (p : Params) (tp : TcpSock) (ca : Wdctcp) (w a : Nat)
    (hP : 0 < p.wdctcp_precision) (hcnt : tp.snd_cwnd_cnt < w)
    (h1 : ca.weight_acked_cnt + ca.obj_weight * a < U32LIM)
    (h2 : tp.snd_cwnd_cnt + (ca.weight_acked_cnt + ca.obj_weight * a)
        / p.wdctcp_precision < U32LIM)
    (h3 : tp.snd_cwnd + (tp.snd_cwnd_cnt + (ca.weight_acked_cnt
        + ca.obj_weight * a) / p.wdctcp_precision) / w < U32LIM) :
    wdctcp_cong_avoid_ai p tp ca w a =
      ({ tp with
          snd_cwnd := min (tp.snd_cwnd
            + (tp.snd_cwnd_cnt + (ca.weight_acked_cnt + ca.obj_weight * a)
                / p.wdctcp_precision) / w) tp.snd_cwnd_clamp
          snd_cwnd_cnt := (tp.snd_cwnd_cnt + (ca.weight_acked_cnt
            + ca.obj_weight * a) / p.wdctcp_precision) % w },
       { ca with weight_acked_cnt := (ca.weight_acked_cnt
          + ca.obj_weight * a) % p.wdctcp_precision }) := by
  have hw : 0 < w := by omega
  have hnle : ¬ w ≤ tp.snd_cwnd_cnt := by omega
  simp only [wdctcp_cong_avoid_ai, if_neg hnle]
  rw [weight_stage_eq p hP ca.obj_weight a (ca.weight_acked_cnt,
    tp.snd_cwnd_cnt) h1 h2]
  dsimp only
  set cnt1 := tp.snd_cwnd_cnt + (ca.weight_acked_cnt + ca.obj_weight * a)
    / p.wdctcp_precision with hc1
  split_ifs with hb
  · have hml : cnt1 / w * w ≤ cnt1 := Nat.div_mul_le_self _ _
    rw [u32sub_eq hml h2, u32add_eq (by omega)]
    have h4 := Nat.div_add_mod cnt1 w
    have h5 : cnt1 / w * w = w * (cnt1 / w) := Nat.mul_comm _ _
    have hcnteq : cnt1 - cnt1 / w * w = cnt1 % w := by omega
    rw [hcnteq]
  · have hmod : cnt1 % w = cnt1 := Nat.mod_eq_of_lt (by omega)
    have hdiv : cnt1 / w = 0 := Nat.div_eq_of_lt (by omega)
    rw [hmod, hdiv, Nat.add_zero]

theorem min_shift (c d1 d2 K : Nat) :
    min (min (c + d1) K + d2) K = min (c + (d1 + d2)) K := by
  simp only [Nat.min_def]
  split_ifs <;> omega

/-- Splitting one additive-increase call into two, at the same divisor w
and with no u32 wrap, gives the same final state. -/
theorem ai_split (p : Params) (tp : TcpSock) (ca : Wdctcp) (w a1 a2 : Nat)
    (hP : 0 < p.wdctcp_precision)
    (hcnt : tp.snd_cwnd_cnt < w)
    (hacc : ca.weight_acked_cnt + ca.obj_weight * (a1 + a2) < U32LIM)
    (hcnt2 : tp.snd_cwnd_cnt + (ca.weight_acked_cnt
        + ca.obj_weight * (a1 + a2)) / p.wdctcp_precision < U32LIM)
    (hcw : tp.snd_cwnd + (tp.snd_cwnd_cnt + (ca.weight_acked_cnt
        + ca.obj_weight * (a1 + a2)) / p.wdctcp_precision) / w < U32LIM) :
    wdctcp_cong_avoid_ai p (wdctcp_cong_avoid_ai p tp ca w a1).1
        (wdctcp_cong_avoid_ai p tp ca w a1).2 w a2
      = wdctcp_cong_avoid_ai p tp ca w (a1 + a2) := by
  have hw : 0 < w := by omega
  have hmadd : ca.obj_weight * (a1 + a2)
      = ca.obj_weight * a1 + ca.obj_weight * a2 := Nat.mul_add _ a1 a2
  have h1a : ca.weight_acked_cnt + ca.obj_weight * a1 < U32LIM := by omega
  have hdleq : (ca.weight_acked_cnt + ca.obj_weight * a1) / p.wdctcp_precision
      ≤ (ca.weight_acked_cnt + ca.obj_weight * (a1 + a2))
        / p.wdctcp_precision :=
    Nat.div_le_div_right (by omega)
  have h2a : tp.snd_cwnd_cnt + (ca.weight_acked_cnt + ca.obj_weight * a1)
      / p.wdctcp_precision < U32LIM := by omega
  have h3a : tp.snd_cwnd + (tp.snd_cwnd_cnt + (ca.weight_acked_cnt
      + ca.obj_weight * a1) / p.wdctcp_precision) / w < U32LIM := by
    have hd2 : (tp.snd_cwnd_cnt + (ca.weight_acked_cnt + ca.obj_weight * a1)
        / p.wdctcp_precision) / w
        ≤ (tp.snd_cwnd_cnt + (ca.weight_acked_cnt
          + ca.obj_weight * (a1 + a2)) / p.wdctcp_precision) / w :=
      Nat.div_le_div_right (by omega)
    omega
  rw [ai_eq p tp ca w a1 hP hcnt h1a h2a h3a]
  dsimp only
  have hXa : ca.weight_acked_cnt + ca.obj_weight * a1 + ca.obj_weight * a2
      = ca.weight_acked_cnt + ca.obj_weight * (a1 + a2) := by omega
  have hdiveq : (ca.weight_acked_cnt + ca.obj_weight * a1
      + ca.obj_weight * a2) / p.wdctcp_precision
      = (ca.weight_acked_cnt + ca.obj_weight * (a1 + a2))
        / p.wdctcp_precision := by rw [hXa]
  have hmodeq : (ca.weight_acked_cnt + ca.obj_weight * a1
      + ca.obj_weight * a2) % p.wdctcp_precision
      = (ca.weight_acked_cnt + ca.obj_weight * (a1 + a2))
        % p.wdctcp_precision := by rw [hXa]
  have hchainP := div_chain hP (ca.weight_acked_cnt + ca.obj_weight * a1)
    (ca.obj_weight * a2)
  have hmodP := mod_chain p.wdctcp_precision
    (ca.weight_acked_cnt + ca.obj_weight * a1) (ca.obj_weight * a2)
  have hchainW := div_chain hw (tp.snd_cwnd_cnt + (ca.weight_acked_cnt
      + ca.obj_weight * a1) / p.wdctcp_precision)
    (((ca.weight_acked_cnt + ca.obj_weight * a1) % p.wdctcp_precision
      + ca.obj_weight * a2) / p.wdctcp_precision)
  have hmodW := mod_chain w (tp.snd_cwnd_cnt + (ca.weight_acked_cnt
      + ca.obj_weight * a1) / p.wdctcp_precision)
    (((ca.weight_acked_cnt + ca.obj_weight * a1) % p.wdctcp_precision
      + ca.obj_weight * a2) / p.wdctcp_precision)
  have hnum : tp.snd_cwnd_cnt + (ca.weight_acked_cnt + ca.obj_weight * a1)
      / p.wdctcp_precision
      + ((ca.weight_acked_cnt + ca.obj_weight * a1) % p.wdctcp_precision
        + ca.obj_weight * a2) / p.wdctcp_precision
      = tp.snd_cwnd_cnt + (ca.weight_acked_cnt
        + ca.obj_weight * (a1 + a2)) / p.wdctcp_precision := by omega
  have hnumdiv : (tp.snd_cwnd_cnt + (ca.weight_acked_cnt
      + ca.obj_weight * a1) / p.wdctcp_precision
      + ((ca.weight_acked_cnt + ca.obj_weight * a1) % p.wdctcp_precision
        + ca.obj_weight * a2) / p.wdctcp_precision) / w
      = (tp.snd_cwnd_cnt + (ca.weight_acked_cnt
        + ca.obj_weight * (a1 + a2)) / p.wdctcp_precision) / w := by
    rw [hnum]
  have hnummod : (tp.snd_cwnd_cnt + (ca.weight_acked_cnt
      + ca.obj_weight * a1) / p.wdctcp_precision
      + ((ca.weight_acked_cnt + ca.obj_weight * a1) % p.wdctcp_precision
        + ca.obj_weight * a2) / p.wdctcp_precision) % w
      = (tp.snd_cwnd_cnt + (ca.weight_acked_cnt
        + ca.obj_weight * (a1 + a2)) / p.wdctcp_precision) % w := by
    rw [hnum]
  have hcnt1 : (tp.snd_cwnd_cnt + (ca.weight_acked_cnt + ca.obj_weight * a1)
      / p.wdctcp_precision) % w < w := Nat.mod_lt _ hw
  have hml1 : (ca.weight_acked_cnt + ca.obj_weight * a1)
      % p.wdctcp_precision ≤ ca.weight_acked_cnt + ca.obj_weight * a1 :=
    Nat.mod_le _ _
  have h1b : (ca.weight_acked_cnt + ca.obj_weight * a1) % p.wdctcp_precision
      + ca.obj_weight * a2 < U32LIM := by omega
  have hml2 : (tp.snd_cwnd_cnt + (ca.weight_acked_cnt + ca.obj_weight * a1)
      / p.wdctcp_precision) % w
      ≤ tp.snd_cwnd_cnt + (ca.weight_acked_cnt + ca.obj_weight * a1)
        / p.wdctcp_precision := Nat.mod_le _ _
  have h2b : (tp.snd_cwnd_cnt + (ca.weight_acked_cnt + ca.obj_weight * a1)
      / p.wdctcp_precision) % w
      + ((ca.weight_acked_cnt + ca.obj_weight * a1) % p.wdctcp_precision
        + ca.obj_weight * a2) / p.wdctcp_precision < U32LIM := by omega
  have hml3 : min (tp.snd_cwnd + (tp.snd_cwnd_cnt + (ca.weight_acked_cnt
      + ca.obj_weight * a1) / p.wdctcp_precision) / w) tp.snd_cwnd_clamp
      ≤ tp.snd_cwnd + (tp.snd_cwnd_cnt + (ca.weight_acked_cnt
        + ca.obj_weight * a1) / p.wdctcp_precision) / w :=
    Nat.min_le_left _ _
  have h3b : min (tp.snd_cwnd + (tp.snd_cwnd_cnt + (ca.weight_acked_cnt
      + ca.obj_weight * a1) / p.wdctcp_precision) / w) tp.snd_cwnd_clamp
      + ((tp.snd_cwnd_cnt + (ca.weight_acked_cnt + ca.obj_weight * a1)
        / p.wdctcp_precision) % w
        + ((ca.weight_acked_cnt + ca.obj_weight * a1) % p.wdctcp_precision
          + ca.obj_weight * a2) / p.wdctcp_precision) / w < U32LIM := by
    omega
  rw [ai_eq p
    { tp with
        snd_cwnd := min (tp.snd_cwnd + (tp.snd_cwnd_cnt
          + (ca.weight_acked_cnt + ca.obj_weight * a1)
            / p.wdctcp_precision) / w) tp.snd_cwnd_clamp
        snd_cwnd_cnt := (tp.snd_cwnd_cnt + (ca.weight_acked_cnt
          + ca.obj_weight * a1) / p.wdctcp_precision) % w }
    { ca with weight_acked_cnt := (ca.weight_acked_cnt
        + ca.obj_weight * a1) % p.wdctcp_precision }
    w a2 hP hcnt1 h1b h2b h3b]
  rw [ai_eq p tp ca w (a1 + a2) hP hcnt hacc hcnt2 hcw]
  dsimp only
  rw [min_shift, hchainW, hnumdiv, hmodW, hnummod, hmodP, hmodeq]

/-- Claim C1 (amended): for the weighted accumulator of the
additive-increase engine, (i) weight_acked_cnt never persists a value at or
above wdctcp_precision across calls; (ii) when the products and counters
stay below 2^32 (no u32 wraparound), the total number of units credited to
snd_cwnd_cnt over any sequence of calls starting from a zero accumulator
equals floor(weight * (sum of acked) / precision); and (iii) splitting one
ACK batch into two calls of wdctcp_cong_avoid_ai at the same divisor w
yields exactly the same final state.  At the wdctcp_cong_avoid level, where
w is re-read from the already-grown snd_cwnd, splitting can yield a smaller
final snd_cwnd (see the counterexample). -/
theorem wdctcp_no_fractional_drift (p : Params)
    (hP : 0 < p.wdctcp_precision) :
    (∀ (W a : Nat) (s : Nat × Nat),
      (wdctcp_weight_stage p W a s).1 < p.wdctcp_precision) ∧
    (∀ (W cnt0 : Nat) (as : List Nat),
      p.wdctcp_precision + W * as.sum ≤ U32LIM →
      cnt0 + W * as.sum / p.wdctcp_precision < U32LIM →
      as.foldl (fun s a => wdctcp_weight_stage p W a s) (0, cnt0)
        = (W * as.sum % p.wdctcp_precision,
           cnt0 + W * as.sum / p.wdctcp_precision)) ∧
    (∀ (tp : TcpSock) (ca : Wdctcp) (w a1 a2 : Nat),
      tp.snd_cwnd_cnt < w →
      ca.weight_acked_cnt + ca.obj_weight * (a1 + a2) < U32LIM →
      tp.snd_cwnd_cnt + (ca.weight_acked_cnt + ca.obj_weight * (a1 + a2))
        / p.wdctcp_precision < U32LIM →
      tp.snd_cwnd + (tp.snd_cwnd_cnt + (ca.weight_acked_cnt
        + ca.obj_weight * (a1 + a2)) / p.wdctcp_precision) / w < U32LIM →
      wdctcp_cong_avoid_ai p (wdctcp_cong_avoid_ai p tp ca w a1).1
          (wdctcp_cong_avoid_ai p tp ca w a1).2 w a2
        = wdctcp_cong_avoid_ai p tp ca w (a1 + a2)) := by
  refine ⟨weight_stage_acc_lt p hP, ?_, ?_⟩
  · intro W cnt0 as hsum hcnt
    have h := weight_stage_foldl p hP W as 0 cnt0 hP (by omega)
      (by rw [Nat.zero_add]; omega)
    rw [Nat.zero_add] at h
    exact h
  · intro tp ca w a1 a2 hcnt hacc hcnt2 hcw
    exact ai_split p tp ca w a1 a2 hP hcnt hacc hcnt2 hcw

/-- Witness for the amended C1, at the spec scenario precision = 10000,
weight = 20000, three calls of acked = 5 from a zero accumulator: the
credited total is exactly floor(20000 * 15 / 10000) = 30 with remainder 0,
and a 7+13 split of a 20-segment batch at fixed w = 10 matches the
combined call. -/
theorem wdctcp_no_fractional_drift_witness :
    ([5, 5, 5].foldl
        (fun s a => wdctcp_weight_stage defaultParams 20000 a s) (0, 0))
      = (0, 30) ∧
    wdctcp_cong_avoid_ai defaultParams
        (wdctcp_cong_avoid_ai defaultParams
          ⟨0, 0, 0, 10, 3, 1, 1000000, false, 0⟩
          ⟨0, 0, 0, 0, 0, 0, false, false, 20000, 0⟩ 10 7).1
        (wdctcp_cong_avoid_ai defaultParams
          ⟨0, 0, 0, 10, 3, 1, 1000000, false, 0⟩
          ⟨0, 0, 0, 0, 0, 0, false, false, 20000, 0⟩ 10 7).2 10 13
      = wdctcp_cong_avoid_ai defaultParams
          ⟨0, 0, 0, 10, 3, 1, 1000000, false, 0⟩
          ⟨0, 0, 0, 0, 0, 0, false, false, 20000, 0⟩ 10 20 := by
  constructor
  · have h := (wdctcp_no_fractional_drift defaultParams (by decide)).2.1
      20000 0 [5, 5, 5] (by decide) (by decide)
    rw [h]
    decide
  · exact (wdctcp_no_fractional_drift defaultParams (by decide)).2.2
      ⟨0, 0, 0, 10, 3, 1, 1000000, false, 0⟩
      ⟨0, 0, 0, 0, 0, 0, false, false, 20000, 0⟩ 10 7 13
      (by decide) (by decide) (by decide) (by decide)

/-- Claim C1 counterexample: at the wdctcp_cong_avoid level the divisor is
re-read from the grown snd_cwnd, so splitting one 20-segment batch into
two 10-segment calls gives final snd_cwnd 11 instead of the 12 a combined
call gives (weight 1x = 10000, precision 10000, snd_cwnd 10, ssthresh 1,
congestion-avoidance phase, window-limited). -/
theorem wdctcp_split_batch_differs :
    (wdctcp_cong_avoid defaultParams true
        ⟨0, 0, 0, 10, 0, 1, 1000000, false, 0⟩
        ⟨0, 0, 0, 0, 0, 0, false, false, 10000, 0⟩ 20).1.snd_cwnd = 12 ∧
    (wdctcp_cong_avoid defaultParams true
        (wdctcp_cong_avoid defaultParams true
          ⟨0, 0, 0, 10, 0, 1, 1000000, false, 0⟩
          ⟨0, 0, 0, 0, 0, 0, false, false, 10000, 0⟩ 10).1
        (wdctcp_cong_avoid defaultParams true
          ⟨0, 0, 0, 10, 0, 1, 1000000, false, 0⟩
          ⟨0, 0, 0, 0, 0, 0, false, false, 10000, 0⟩ 10).2
        10).1.snd_cwnd = 11 := by
  decide

/-- Claim C9: for every state — slow-start or congestion-avoidance phase —
when the connection is not window-limited, cong_avoid leaves snd_cwnd,
snd_cwnd_cnt and weight_acked_cnt (the whole tp and ca state) unchanged;
and when snd_cwnd <= snd_ssthresh, slow start consumes the acked segments
capped so snd_cwnd never overshoots ssthresh, and if it consumes all of
them cong_avoid returns without executing the weighted additive-increase
path in that call. -/
theorem wdctcp_cong_avoid_gating (p : Params) (tp : TcpSock) (ca : Wdctcp)
    (acked : Nat) :
    wdctcp_cong_avoid p false tp ca acked = (tp, ca) ∧
    (tp.snd_cwnd ≤ tp.snd_ssthresh → (tcp_slow_start tp acked).2 = 0 →
      wdctcp_cong_avoid p true tp ca acked
          = ((tcp_slow_start tp acked).1, ca) ∧
      (tcp_slow_start tp acked).1.snd_cwnd ≤ tp.snd_ssthresh) := by
  refine ⟨rfl, fun hss hfull => ⟨?_, ?_⟩⟩
  · simp [wdctcp_cong_avoid, hss, hfull]
  · simp only [tcp_slow_start]
    exact le_trans (Nat.min_le_left _ _) (Nat.min_le_right _ _)

/-- Witness for C9: a not-window-limited call in the congestion-avoidance
phase (snd_cwnd = 20 above ssthresh = 10) changes nothing, and at
snd_cwnd = 5, ssthresh = 10, acked = 3 slow start consumes all three
segments, grows the window to 8 and the additive-increase state is
untouched. -/
theorem wdctcp_cong_avoid_gating_witness :
    wdctcp_cong_avoid defaultParams false ⟨0, 0, 0, 20, 2, 10, 100, false, 0⟩
        ⟨0, 0, 0, 0, 0, 0, false, false, 10000, 7⟩ 3
      = (⟨0, 0, 0, 20, 2, 10, 100, false, 0⟩,
         ⟨0, 0, 0, 0, 0, 0, false, false, 10000, 7⟩) ∧
    wdctcp_cong_avoid defaultParams true ⟨0, 0, 0, 5, 2, 10, 100, false, 0⟩
        ⟨0, 0, 0, 0, 0, 0, false, false, 10000, 7⟩ 3
      = ((tcp_slow_start ⟨0, 0, 0, 5, 2, 10, 100, false, 0⟩ 3).1,
         ⟨0, 0, 0, 0, 0, 0, false, false, 10000, 7⟩) :=
  ⟨(wdctcp_cong_avoid_gating defaultParams ⟨0, 0, 0, 20, 2, 10, 100, false, 0⟩
      ⟨0, 0, 0, 0, 0, 0, false, false, 10000, 7⟩ 3).1,
   ((wdctcp_cong_avoid_gating defaultParams ⟨0, 0, 0, 5, 2, 10, 100, false, 0⟩
      ⟨0, 0, 0, 0, 0, 0, false, false, 10000, 7⟩ 3).2
      (by decide) (by decide)).1⟩

end WDCTCP
